import Mathlib

/-!
# Verification of `simple-endpoint-monitor-cli` (src/main.py)

A shallow embedding of the endpoint monitor's core: the probe
(`check_endpoint`), the endpoint-list parsing in `main`, the
fixed-size worker pool, and the table rendering.

Modelling choices:
* The network environment of one `requests.get` call is a `NetResult`:
  either a response (status code plus the wall-clock elapsed time the
  caller would measure) or a raised `requests` exception, identified by
  its class name and whether it is an instance of
  `requests.exceptions.Timeout`.  Every exception `requests.get` raises
  for a network failure is a `requests.exceptions.RequestException`.
* Python floats are modelled as exact rationals (`ℚ`); `round(x, 2)` is
  modelled as decimal rounding half-to-even, Python's rounding mode.
* Python strings are Lean `String`s; for the line parser we work on
  `List Char` (a `String`'s underlying data) to ease induction.
-/

namespace EndpointMonitor

/-- Python's `round`-to-integer: round half to even (banker's rounding). -/
def roundHalfEven (x : ℚ) : ℤ :=
  if x - (⌊x⌋ : ℚ) < 1/2 then ⌊x⌋
  else if 1/2 < x - (⌊x⌋ : ℚ) then ⌊x⌋ + 1
  else if ⌊x⌋ % 2 = 0 then ⌊x⌋ else ⌊x⌋ + 1

/-- `round(x, 2)` from `src/main.py` line 22: round to two decimal places. -/
def round2 (x : ℚ) : ℚ := ((roundHalfEven (x * 100) : ℤ) : ℚ) / 100

/-- The behaviour of the network (and clock) for one `requests.get` call:
either a response arrives, carrying the HTTP status code and the
wall-clock duration the caller measures around the call, or the library
raises an exception named `excName`; `isTimeout` records whether that
exception is an instance of `requests.exceptions.Timeout`.  All such
exceptions are instances of `requests.exceptions.RequestException`. -/
inductive NetResult where
  | success (statusCode : ℕ) (elapsed : ℚ)
  | failure (excName : String) (isTimeout : Bool)
deriving DecidableEq, Repr

/-- The dict returned by `check_endpoint` (src/main.py lines 23-32):
keys `url`, `status`, `time`, `result`.  `none` models Python `None`. -/
structure Outcome where
  url : String
  status : Option ℕ
  time : Option ℚ
  result : String
deriving DecidableEq, Repr

/-- `check_endpoint(url, timeout)` from src/main.py lines 17-32, as a
function of the network behaviour.  On a response: status and rounded
elapsed time are recorded and the result is `"UP"` if the rounded
elapsed time is at most the timeout, else `"TIMEOUT"`.  On a raised
`Timeout`: bare `"TIMEOUT"`.  On any other `RequestException`:
`"DOWN (<class name>)"`. -/
def check_endpoint (url : String) (timeout : ℤ) : NetResult → Outcome
  | .success code raw =>
      let elapsed := round2 raw
      { url := url, status := some code, time := some elapsed,
        result := if elapsed ≤ (timeout : ℚ) then "UP" else "TIMEOUT" }
  | .failure name isTimeout =>
      if isTimeout then
        { url := url, status := none, time := none, result := "TIMEOUT" }
      else
        { url := url, status := none, time := none,
          result := "DOWN (" ++ name ++ ")" }

/-- The bare `requests.get(url, timeout=timeout)` call (src/main.py
line 21) without any handler around it: a response is returned
normally, an exception propagates as `Except.error`. -/
def requests_get : NetResult → Except (String × Bool) ℕ
  | .success code _ => .ok code
  | .failure name isTimeout => .error (name, isTimeout)

/-- `check_endpoint` with its `try`/`except` structure made explicit
(src/main.py lines 19-32): the body issues `requests_get`; the first
handler catches `requests.exceptions.Timeout`, the second catches every
remaining `requests.exceptions.RequestException`.  An uncaught
exception would surface as `Except.error`. -/
def check_endpoint_tryExcept (url : String) (timeout : ℤ) (net : NetResult) :
    Except (String × Bool) Outcome :=
  match requests_get net with
  | .ok code =>
      let elapsed := round2 (match net with
        | .success _ raw => raw
        | .failure _ _ => 0)
      .ok { url := url, status := some code, time := some elapsed,
            result := if elapsed ≤ (timeout : ℚ) then "UP" else "TIMEOUT" }
  | .error e =>
      if e.2 then
        .ok { url := url, status := none, time := none, result := "TIMEOUT" }
      else
        .ok { url := url, status := none, time := none,
              result := "DOWN (" ++ e.1 ++ ")" }

/-- The spec's view of an outcome's `classification` field: the code
packs the DOWN error category into the `result` string as
`"DOWN (<name>)"`; the classification is `"DOWN"` for such strings and
the `result` string itself otherwise. -/
def classification (o : Outcome) : String :=
  if o.result.data.take 4 = "DOWN".data then "DOWN" else o.result

/-- The spec's view of an outcome's `error_detail` field: the failure
category name packed into a `"DOWN (<name>)"` result string, if any. -/
def error_detail (o : Outcome) : Option String :=
  if o.result.data.take 6 = "DOWN (".data then
    some (String.mk ((o.result.data.drop 6).dropLast))
  else none

/-! ## Endpoint-list parsing (src/main.py lines 39-44) -/

/-- Python `str.isspace` restricted to the ASCII whitespace characters
(`' '`, `'\t'`, `'\n'`, `'\r'`, `'\x0b'`, `'\x0c'`), the set
`str.strip()` removes. -/
def isPySpace (c : Char) : Bool :=
  c = ' ' || c = '\t' || c = '\n' || c = '\r' ||
  c = Char.ofNat 11 || c = Char.ofNat 12

/-- Python `line.strip()`: remove leading and trailing whitespace. -/
def pyStrip (l : List Char) : List Char :=
  ((l.dropWhile isPySpace).reverse.dropWhile isPySpace).reverse

/-- Iterating an open text file yields its lines.  We split the
content on `'\n'`, dropping the separator: Python retains the `'\n'`
at the end of each line, but `strip()` removes it, and the extra empty
segment this split produces after a trailing `'\n'` is a blank line
the comprehension filters out, so the parsed result is unchanged. -/
def splitLines : List Char → List (List Char)
  | [] => [[]]
  | c :: cs =>
      if c = '\n' then [] :: splitLines cs
      else
        match splitLines cs with
        | [] => [[c]]
        | l :: ls => (c :: l) :: ls

/-- `line.strip().startswith("#")` on an already-stripped line: its
first character is `'#'` (false on the empty string). -/
def startsWithHash (l : List Char) : Bool := l.head? == some '#'

/-- The filter of the list comprehension in src/main.py lines 40-44:
`line.strip() and not line.strip().startswith("#")`. -/
def keepLine (l : List Char) : Bool :=
  !(pyStrip l).isEmpty && !startsWithHash (pyStrip l)

/-- The list comprehension in src/main.py lines 40-44:
`[line.strip() for line in f if line.strip() and not line.strip().startswith("#")]`. -/
def parse (content : List Char) : List (List Char) :=
  ((splitLines content).filter keepLine).map pyStrip

/-- Modelled from the spec's words (§6): "one endpoint per line; blank
lines ignored; lines whose first non-whitespace character is `#`
ignored as comments; no other syntax" — to be compared with `parse`,
which is translated from the code. -/
def parseSpec (content : List Char) : List (List Char) :=
  (splitLines content).filterMap fun l =>
    match l.dropWhile isPySpace with
    | [] => none
    | c :: _ => if c = '#' then none else some (pyStrip l)

/-! ## Scheduler / worker pool (src/main.py lines 48-52)

`main` submits one `check_endpoint` task per parsed URL to a
`ThreadPoolExecutor(max_workers=MAX_WORKERS)` and collects each
future's result as it completes.  The executor's semantics — at most
`max_workers` submitted tasks run at any instant, a pending task may
start only when fewer than `max_workers` are running — is modelled as
a transition system over task counts. -/

/-- Counts of the submitted tasks by phase: not yet started, currently
executing on a worker thread, and completed. -/
structure PoolState where
  pending : ℕ
  running : ℕ
  done : ℕ
deriving DecidableEq, Repr

/-- One scheduling event of `ThreadPoolExecutor(max_workers=maxWorkers)`:
a pending task starts only while fewer than `maxWorkers` tasks are
running; a running task finishes. -/
inductive PoolStep (maxWorkers : ℕ) : PoolState → PoolState → Prop
  | start (s : PoolState) (hp : 0 < s.pending) (hr : s.running < maxWorkers) :
      PoolStep maxWorkers s ⟨s.pending - 1, s.running + 1, s.done⟩
  | finish (s : PoolState) (hr : 0 < s.running) :
      PoolStep maxWorkers s ⟨s.pending, s.running - 1, s.done + 1⟩

/-- The states a run over `n` submitted tasks can pass through: from
all-pending via any interleaving of pool events. -/
inductive PoolReachable (maxWorkers n : ℕ) : PoolState → Prop
  | init : PoolReachable maxWorkers n ⟨n, 0, 0⟩
  | step {s t : PoolState} (hs : PoolReachable maxWorkers n s)
      (hst : PoolStep maxWorkers s t) : PoolReachable maxWorkers n t

/-! ## Dispatch, aggregation and rendering (src/main.py lines 46-65) -/

/-- The futures created by `executor.submit(check_endpoint, url, TIMEOUT)`
for url in urls (src/main.py line 50), in submission order: one task
per list element — duplicates included, since the dict
`future_to_url` is keyed by the (distinct) future objects.  `net i`
is the network behaviour seen by the i-th submitted probe. -/
def dispatch (urls : List String) (timeout : ℤ) (net : ℕ → NetResult) :
    List Outcome :=
  urls.enum.map fun p => check_endpoint p.2 timeout (net p.1)

/-- The result collection built by the `as_completed` loop
(src/main.py lines 51-52): the futures' results, in an unspecified
completion order — as a multiset, since the spec calls the order
insignificant. -/
def run (urls : List String) (timeout : ℤ) (net : ℕ → NetResult) :
    Multiset Outcome :=
  (dispatch urls timeout net : Multiset Outcome)

/-- One row of the output table (src/main.py lines 57-62). -/
structure Row where
  endpoint : String
  result : String
  httpStatus : String
  responseTime : String
deriving DecidableEq, Repr

/-- `res['status'] if res['status'] else "-"` (src/main.py line 60):
Python truthiness — `None` and `0` are falsy. -/
def statusCell : Option ℕ → String
  | none => "-"
  | some n => if n = 0 then "-" else toString n

/-- Python's `str(float)` rendering, modelled as `toString` on the
exact rational; only its distinction from `"-"` matters here. -/
def formatFloat (q : ℚ) : String := toString q

/-- `f"{res['time']}s" if res['time'] else "-"` (src/main.py line 61):
Python truthiness — `None` and `0.0` are falsy. -/
def timeCell : Option ℚ → String
  | none => "-"
  | some q => if q = 0 then "-" else formatFloat q ++ "s"

/-- The table row built for one result dict (src/main.py lines 57-62). -/
def renderRow (o : Outcome) : Row :=
  ⟨o.url, o.result, statusCell o.status, timeCell o.time⟩

/-- What one invocation of `main` produces: either it aborts up front
(no probing, no table), or it completes with the result collection
and the rendered table rows. -/
inductive MainOutput where
  | aborted
  | completed (results : List Outcome) (table : List Row)
deriving Repr

/-- `main()` from src/main.py lines 34-65.  `file` is the content of
`URL_FILE` if that file exists (`os.path.exists`), else `none`;
`order` is the completion order of the futures, as a list of
submission indices; `net i` is the network behaviour of the i-th
submitted probe.  If the file is missing, `main` prints an error and
returns before reading, probing or rendering anything. -/
def main (file : Option (List Char)) (timeout : ℤ) (net : ℕ → NetResult)
    (order : List ℕ) : MainOutput :=
  match file with
  | none => .aborted
  | some content =>
      let urls := (parse content).map String.mk
      let results := order.filterMap (dispatch urls timeout net).get?
      .completed results (results.map renderRow)

/-- The outcomes an invocation produced (zero when it aborted). -/
def outcomesOf : MainOutput → List Outcome
  | .aborted => []
  | .completed results _ => results

/-- The table an invocation rendered (`none` when it aborted). -/
def tableOf : MainOutput → Option (List Row)
  | .aborted => none
  | .completed _ table => some table

/-! ## Helper lemmas -/

theorem check_endpoint_success (u : String) (t : ℤ) (code : ℕ) (raw : ℚ) :
    check_endpoint u t (.success code raw) =
      { url := u, status := some code, time := some (round2 raw),
        result := if round2 raw ≤ (t : ℚ) then "UP" else "TIMEOUT" } := rfl

theorem check_endpoint_timeout_exc (u name : String) (t : ℤ) :
    check_endpoint u t (.failure name true) =
      { url := u, status := none, time := none, result := "TIMEOUT" } := rfl

theorem check_endpoint_request_exc (u name : String) (t : ℤ) :
    check_endpoint u t (.failure name false) =
      { url := u, status := none, time := none,
        result := "DOWN (" ++ name ++ ")" } := rfl

theorem down_data (name : String) :
    ("DOWN (" ++ name ++ ")").data = "DOWN (".data ++ (name.data ++ ")".data) := by
  rw [String.data_append, String.data_append, List.append_assoc]

theorem down_take4 (name : String) :
    ("DOWN (" ++ name ++ ")").data.take 4 = "DOWN".data := by
  rw [down_data, List.take_append_of_le_length (by decide)]
  decide

theorem down_take6 (name : String) :
    ("DOWN (" ++ name ++ ")").data.take 6 = "DOWN (".data := by
  rw [down_data, List.take_append_of_le_length (by decide)]
  decide

theorem down_drop6 (name : String) :
    ("DOWN (" ++ name ++ ")").data.drop 6 = name.data ++ [')'] := by
  rw [down_data]
  have h : ("DOWN (".data ++ (name.data ++ ")".data)).drop 6 =
      ("DOWN (".data ++ (name.data ++ ")".data)).drop "DOWN (".data.length := rfl
  rw [h, List.drop_left]

theorem classification_down (u name : String) (st : Option ℕ) (tm : Option ℚ) :
    classification ⟨u, st, tm, "DOWN (" ++ name ++ ")"⟩ = "DOWN" := by
  unfold classification
  rw [if_pos (down_take4 name)]

theorem error_detail_down (u name : String) (st : Option ℕ) (tm : Option ℚ) :
    error_detail ⟨u, st, tm, "DOWN (" ++ name ++ ")"⟩ = some name := by
  unfold error_detail
  rw [if_pos (down_take6 name)]
  show some (String.mk ((("DOWN (" ++ name ++ ")").data.drop 6).dropLast)) =
    some name
  rw [down_drop6, List.dropLast_concat]

theorem classification_up (u : String) (st : Option ℕ) (tm : Option ℚ) :
    classification ⟨u, st, tm, "UP"⟩ = "UP" := by
  unfold classification
  rw [if_neg (show ¬(("UP" : String).data.take 4 = "DOWN".data) by decide)]

theorem classification_timeout (u : String) (st : Option ℕ) (tm : Option ℚ) :
    classification ⟨u, st, tm, "TIMEOUT"⟩ = "TIMEOUT" := by
  unfold classification
  rw [if_neg (show ¬(("TIMEOUT" : String).data.take 4 = "DOWN".data) by decide)]

theorem error_detail_up (u : String) (st : Option ℕ) (tm : Option ℚ) :
    error_detail ⟨u, st, tm, "UP"⟩ = none := by
  unfold error_detail
  rw [if_neg (show ¬(("UP" : String).data.take 6 = "DOWN (".data) by decide)]

theorem error_detail_timeout (u : String) (st : Option ℕ) (tm : Option ℚ) :
    error_detail ⟨u, st, tm, "TIMEOUT"⟩ = none := by
  unfold error_detail
  rw [if_neg
    (show ¬(("TIMEOUT" : String).data.take 6 = "DOWN (".data) by decide)]

/-! ## Claims -/

/-- C2: For every probe outcome, its classification field is exactly
one of the three values UP, TIMEOUT, DOWN. -/
theorem classification_closed (url : String) (timeout : ℤ) (net : NetResult) :
    classification (check_endpoint url timeout net) = "UP" ∨
    classification (check_endpoint url timeout net) = "TIMEOUT" ∨
    classification (check_endpoint url timeout net) = "DOWN" := by
  cases net with
  | success code raw =>
      rw [check_endpoint_success]
      by_cases h : round2 raw ≤ (timeout : ℚ)
      · rw [if_pos h]
        exact Or.inl (classification_up ..)
      · rw [if_neg h]
        exact Or.inr (Or.inl (classification_timeout ..))
  | failure name isTimeout =>
      cases isTimeout with
      | true =>
          rw [check_endpoint_timeout_exc]
          exact Or.inr (Or.inl (classification_timeout ..))
      | false =>
          rw [check_endpoint_request_exc]
          exact Or.inr (Or.inr (classification_down ..))

/-- C5: For every endpoint, timeout and failure mode of the underlying
network request, the probe returns a classified outcome and never
propagates an exception: the `try`/`except` form of `check_endpoint`
always returns `Except.ok`, with the same outcome as the total
function. -/
theorem check_endpoint_never_raises (url : String) (timeout : ℤ)
    (net : NetResult) :
    check_endpoint_tryExcept url timeout net =
      Except.ok (check_endpoint url timeout net) := by
  cases net with
  | success code raw => rfl
  | failure name isTimeout => cases isTimeout <;> rfl

/-- C3 (counterexample): a response received with measured elapsed
time 2s against timeout 1s is classified TIMEOUT by line 27 of
src/main.py, yet carries `http_status = 200` and `elapsed = 2` — so a
TIMEOUT outcome does not always carry no http_status and no elapsed. -/
theorem timeout_outcome_with_fields :
    classification (check_endpoint "http://x" 1 (.success 200 2)) = "TIMEOUT" ∧
    (check_endpoint "http://x" 1 (.success 200 2)).status = some 200 ∧
    (check_endpoint "http://x" 1 (.success 200 2)).time = some 2 := by
  have h2 : round2 2 = 2 := by norm_num [round2, roundHalfEven]
  refine ⟨?_, rfl, ?_⟩
  · rw [check_endpoint_success, h2,
      if_neg (show ¬((2 : ℚ) ≤ ((1 : ℤ) : ℚ)) by norm_num)]
    exact classification_timeout ..
  · rw [check_endpoint_success]
    show some (round2 2) = some 2
    rw [h2]

/-- C3 (amended): every outcome classified TIMEOUT carries no
error_detail; a TIMEOUT outcome arising from a raised timeout
exception carries no http_status and no elapsed; but a TIMEOUT outcome
arising from a received response — possible exactly when the rounded
elapsed time exceeds the timeout — carries both http_status and
elapsed. -/
theorem timeout_outcome_fields (url : String) (timeout : ℤ) (net : NetResult)
    (h : classification (check_endpoint url timeout net) = "TIMEOUT") :
    error_detail (check_endpoint url timeout net) = none ∧
    (∀ name b, net = .failure name b →
      (check_endpoint url timeout net).status = none ∧
      (check_endpoint url timeout net).time = none) ∧
    (∀ code raw, net = .success code raw →
      (check_endpoint url timeout net).status = some code ∧
      (check_endpoint url timeout net).time = some (round2 raw) ∧
      (timeout : ℚ) < round2 raw) := by
  cases net with
  | success code raw =>
      by_cases hle : round2 raw ≤ (timeout : ℚ)
      · rw [check_endpoint_success, if_pos hle, classification_up] at h
        exact absurd h (by decide)
      · refine ⟨?_, ?_, ?_⟩
        · rw [check_endpoint_success, if_neg hle]
          exact error_detail_timeout ..
        · intro name b hne
          cases hne
        · intro c r hcr
          obtain ⟨rfl, rfl⟩ : code = c ∧ raw = r := by
            cases hcr
            exact ⟨rfl, rfl⟩
          exact ⟨rfl, rfl, lt_of_not_ge hle⟩
  | failure name isTimeout =>
      cases isTimeout with
      | true =>
          refine ⟨?_, ?_, ?_⟩
          · rw [check_endpoint_timeout_exc]
            exact error_detail_timeout ..
          · intro _ _ _
            exact ⟨rfl, rfl⟩
          · intro c r hcr
            cases hcr
      | false =>
          rw [check_endpoint_request_exc, classification_down] at h
          exact absurd h (by decide)

/-- C3 witness: a pure timeout exception yields a TIMEOUT outcome with
no error_detail, no status and no elapsed. -/
theorem timeout_outcome_fields_witness :
    error_detail (check_endpoint "http://a" 30 (.failure "Timeout" true)) =
      none ∧
    (check_endpoint "http://a" 30 (.failure "Timeout" true)).status = none ∧
    (check_endpoint "http://a" 30 (.failure "Timeout" true)).time = none := by
  have h := timeout_outcome_fields "http://a" 30 (.failure "Timeout" true)
    (by rw [check_endpoint_timeout_exc]; exact classification_timeout ..)
  exact ⟨h.1, h.2.1 "Timeout" true rfl⟩

/-- C4: for every outcome whose classification is not TIMEOUT, exactly
one of http_status and error_detail is present: UP outcomes carry
http_status and elapsed with no error_detail, DOWN outcomes carry
error_detail with http_status and elapsed absent. -/
theorem outcome_field_exclusivity (url : String) (timeout : ℤ)
    (net : NetResult) :
    (classification (check_endpoint url timeout net) = "UP" →
      (check_endpoint url timeout net).status ≠ none ∧
      (check_endpoint url timeout net).time ≠ none ∧
      error_detail (check_endpoint url timeout net) = none) ∧
    (classification (check_endpoint url timeout net) = "DOWN" →
      error_detail (check_endpoint url timeout net) ≠ none ∧
      (check_endpoint url timeout net).status = none ∧
      (check_endpoint url timeout net).time = none) ∧
    (classification (check_endpoint url timeout net) ≠ "TIMEOUT" →
      Xor' ((check_endpoint url timeout net).status ≠ none)
        (error_detail (check_endpoint url timeout net) ≠ none)) := by
  cases net with
  | success code raw =>
      rw [check_endpoint_success]
      by_cases hle : round2 raw ≤ (timeout : ℚ)
      · rw [if_pos hle]
        refine ⟨?_, ?_, ?_⟩
        · intro _
          exact ⟨by simp, by simp, error_detail_up ..⟩
        · rw [classification_up]
          intro h
          exact absurd h (by decide)
        · intro _
          left
          refine ⟨by simp, ?_⟩
          rw [error_detail_up]
          simp
      · rw [if_neg hle]
        refine ⟨?_, ?_, ?_⟩
        · rw [classification_timeout]
          intro h
          exact absurd h (by decide)
        · rw [classification_timeout]
          intro h
          exact absurd h (by decide)
        · rw [classification_timeout]
          intro h
          exact absurd rfl h
  | failure name isTimeout =>
      cases isTimeout with
      | true =>
          rw [check_endpoint_timeout_exc]
          refine ⟨?_, ?_, ?_⟩ <;> rw [classification_timeout]
          · intro h
            exact absurd h (by decide)
          · intro h
            exact absurd h (by decide)
          · intro h
            exact absurd rfl h
      | false =>
          rw [check_endpoint_request_exc]
          refine ⟨?_, ?_, ?_⟩
          · rw [classification_down]
            intro h
            exact absurd h (by decide)
          · intro _
            refine ⟨?_, rfl, rfl⟩
            rw [error_detail_down]
            simp
          · intro _
            right
            refine ⟨?_, ?_⟩
            · rw [error_detail_down]
              simp
            · simp

/-- C4 witness: a connection error yields a DOWN outcome with
error_detail present and status/time absent. -/
theorem outcome_field_exclusivity_witness :
    error_detail
      (check_endpoint "http://a" 30 (.failure "ConnectionError" false)) ≠
      none ∧
    (check_endpoint "http://a" 30 (.failure "ConnectionError" false)).status =
      none ∧
    (check_endpoint "http://a" 30 (.failure "ConnectionError" false)).time =
      none :=
  (outcome_field_exclusivity "http://a" 30
    (.failure "ConnectionError" false)).2.1
    (by rw [check_endpoint_request_exc]; exact classification_down ..)

/-- C1: for every input list of N endpoint strings, `run` yields a
collection of exactly N outcomes, and each submitted endpoint — the
i-th input element, duplicates included — contributes its own
independently computed probe outcome. -/
theorem run_size (urls : List String) (timeout : ℤ) (net : ℕ → NetResult) :
    Multiset.card (run urls timeout net) = urls.length ∧
    ∀ i (h : i < urls.length),
      check_endpoint (urls.get ⟨i, h⟩) timeout (net i) ∈
        run urls timeout net := by
  constructor
  · show Multiset.card ((dispatch urls timeout net : List Outcome) :
      Multiset Outcome) = urls.length
    rw [Multiset.coe_card]
    unfold dispatch
    rw [List.length_map, List.enum_length]
  · intro i h
    show check_endpoint (urls.get ⟨i, h⟩) timeout (net i) ∈
      (dispatch urls timeout net : List Outcome)
    unfold dispatch
    apply List.mem_map.mpr
    refine ⟨(i, urls.get ⟨i, h⟩), ?_, rfl⟩
    rw [List.mem_enum_iff_getElem?]
    exact List.getElem?_eq_getElem h

/-- C1 witness: two submissions of the same endpoint give a
two-element result collection containing that endpoint's outcome. -/
theorem run_size_witness :
    Multiset.card (run ["http://a", "http://a"] 30
      (fun _ => .failure "ConnectionError" false)) = 2 ∧
    check_endpoint "http://a" 30 (.failure "ConnectionError" false) ∈
      run ["http://a", "http://a"] 30
        (fun _ => .failure "ConnectionError" false) := by
  have h := run_size ["http://a", "http://a"] 30
    (fun _ => .failure "ConnectionError" false)
  exact ⟨h.1, h.2 0 (by decide)⟩

/-- C6: in every state a run over `n` submitted probes can reach, the
number of probes executing simultaneously never exceeds the
configured maximum worker count. -/
theorem pool_running_le (maxWorkers n : ℕ) (s : PoolState)
    (h : PoolReachable maxWorkers n s) : s.running ≤ maxWorkers := by
  induction h with
  | init => exact Nat.zero_le _
  | step hs hst ih =>
      cases hst with
      | start hp hr => exact hr
      | finish hr => exact le_trans (Nat.sub_le _ _) ih

/-- C6 witness: with 10 workers and 3 submitted probes, the state
after one task has started has at most 10 running. -/
theorem pool_running_le_witness : (⟨2, 1, 0⟩ : PoolState).running ≤ 10 :=
  pool_running_le 10 3 ⟨2, 1, 0⟩
    (PoolReachable.step PoolReachable.init
      (PoolStep.start ⟨3, 0, 0⟩ (by decide) (by decide)))

/-- C7: if the endpoint source file does not exist, `main` aborts:
no outcome is produced and no result table is rendered, whatever the
network would have answered. -/
theorem main_aborts_on_missing_file (timeout : ℤ) (net : ℕ → NetResult)
    (order : List ℕ) :
    main none timeout net order = .aborted ∧
    outcomesOf (main none timeout net order) = [] ∧
    tableOf (main none timeout net order) = none :=
  ⟨rfl, rfl, rfl⟩

theorem dropWhile_head_not {α : Type} (p : α → Bool) :
    ∀ (l : List α) (c : α) (rest : List α),
      l.dropWhile p = c :: rest → p c = false := by
  intro l
  induction l with
  | nil => intro c rest h; cases h
  | cons a as ih =>
      intro c rest h
      rw [List.dropWhile_cons] at h
      by_cases ha : p a = true
      · rw [if_pos ha] at h
        exact ih c rest h
      · rw [if_neg ha] at h
        cases h
        exact Bool.not_eq_true _ |>.mp ha

theorem pyStrip_of_dropWhile_nil (l : List Char)
    (h : l.dropWhile isPySpace = []) : pyStrip l = [] := by
  unfold pyStrip
  rw [h]
  rfl

theorem pyStrip_cons (l : List Char) (c : Char) (rest : List Char)
    (h : l.dropWhile isPySpace = c :: rest) :
    ∃ m, pyStrip l = c :: m := by
  have hc : isPySpace c = false := dropWhile_head_not isPySpace l c rest h
  unfold pyStrip
  rw [h, List.reverse_cons, List.dropWhile_append]
  cases he : (rest.reverse.dropWhile isPySpace).isEmpty with
  | true =>
      refine ⟨[], ?_⟩
      rw [if_pos rfl, List.dropWhile_cons, if_neg (by simp [hc])]
      rfl
  | false =>
      refine ⟨(rest.reverse.dropWhile isPySpace).reverse, ?_⟩
      rw [if_neg (by simp), List.reverse_append]
      rfl

theorem keepLine_of_dropWhile_nil (l : List Char)
    (h : l.dropWhile isPySpace = []) : keepLine l = false := by
  unfold keepLine
  rw [pyStrip_of_dropWhile_nil l h]
  rfl

theorem keepLine_of_cons (l : List Char) (c : Char) (rest : List Char)
    (h : l.dropWhile isPySpace = c :: rest) :
    keepLine l = !(c == '#') := by
  obtain ⟨m, hm⟩ := pyStrip_cons l c rest h
  unfold keepLine startsWithHash
  rw [hm]
  simp

theorem filter_strip_eq_filterMap (ls : List (List Char)) :
    (ls.filter keepLine).map pyStrip =
    ls.filterMap (fun l =>
      match l.dropWhile isPySpace with
      | [] => none
      | c :: _ => if c = '#' then none else some (pyStrip l)) := by
  induction ls with
  | nil => rfl
  | cons l ls ih =>
      rw [List.filter_cons, List.filterMap_cons]
      cases hd : l.dropWhile isPySpace with
      | nil =>
          rw [keepLine_of_dropWhile_nil l hd]
          simp only [hd]
          simpa using ih
      | cons c rest =>
          rw [keepLine_of_cons l c rest hd]
          simp only [hd]
          by_cases hch : c = '#'
          · subst hch
            simpa using ih
          · simp only [hch, if_false, beq_iff_eq]
            simpa [hch] using ih

/-- C8: parsing the endpoint list keeps exactly the stripped lines
that are non-blank and whose first non-whitespace character is not
`'#'` — the code's comprehension agrees with the spec's parsing rule
on every file content, so no other syntax rule is applied. -/
theorem parse_eq_parseSpec (content : List Char) :
    parse content = parseSpec content := by
  unfold parse parseSpec
  exact filter_strip_eq_filterMap (splitLines content)

/-- C9: an UP outcome whose measured elapsed time rounds to 0.0 is
rendered with the placeholder `"-"` in the response-time column even
though its elapsed field is present, because line 61 of src/main.py
tests the value for Python truthiness (0.0 is falsy) instead of
presence. -/
theorem zero_elapsed_renders_dash (url : String) (timeout : ℤ) (code : ℕ)
    (raw : ℚ) (h : round2 raw = 0) :
    (check_endpoint url timeout (.success code raw)).time = some 0 ∧
    (renderRow (check_endpoint url timeout (.success code raw))).responseTime =
      "-" ∧
    (0 ≤ timeout →
      classification (check_endpoint url timeout (.success code raw)) =
        "UP") := by
  refine ⟨?_, ?_, ?_⟩
  · rw [check_endpoint_success]
    show some (round2 raw) = some 0
    rw [h]
  · rw [check_endpoint_success]
    show timeCell (some (round2 raw)) = "-"
    rw [h]
    simp [timeCell]
  · intro ht
    have hle : round2 raw ≤ (timeout : ℚ) := by
      rw [h]
      exact_mod_cast ht
    rw [check_endpoint_success, if_pos hle]
    exact classification_up ..

/-- C9 witness: a response in 0.004s against a 30s timeout is UP with
elapsed recorded as 0, rendered as `"-"`. -/
theorem zero_elapsed_renders_dash_witness :
    (check_endpoint "http://a" 30 (.success 200 (1/250))).time = some 0 ∧
    (renderRow (check_endpoint "http://a" 30
      (.success 200 (1/250)))).responseTime = "-" := by
  have h := zero_elapsed_renders_dash "http://a" 30 200 (1/250)
    (by norm_num [round2, roundHalfEven])
  exact ⟨h.1, h.2.1⟩

theorem roundHalfEven_abs_le (x : ℚ) :
    |((roundHalfEven x : ℤ) : ℚ) - x| ≤ 1/2 := by
  unfold roundHalfEven
  have h0 : (0 : ℚ) ≤ x - (⌊x⌋ : ℚ) := by
    have := Int.floor_le x
    linarith
  have h1 : x - (⌊x⌋ : ℚ) < 1 := by
    have := Int.lt_floor_add_one x
    linarith
  by_cases hlt : x - (⌊x⌋ : ℚ) < 1/2
  · rw [if_pos hlt, abs_le]
    constructor <;> linarith
  · rw [if_neg hlt]
    by_cases hgt : 1/2 < x - (⌊x⌋ : ℚ)
    · rw [if_pos hgt, abs_le]
      push_cast
      constructor <;> linarith
    · rw [if_neg hgt]
      have heq : x - (⌊x⌋ : ℚ) = 1/2 :=
        le_antisymm (le_of_not_lt hgt) (le_of_not_lt hlt)
      by_cases hev : ⌊x⌋ % 2 = 0
      · rw [if_pos hev, abs_le]
        constructor <;> linarith
      · rw [if_neg hev, abs_le]
        push_cast
        constructor <;> linarith

theorem round2_abs_le (x : ℚ) : |round2 x - x| ≤ 1/200 := by
  unfold round2
  have h := roundHalfEven_abs_le (x * 100)
  rw [abs_le] at h ⊢
  constructor <;> [linarith; linarith]

/-- C10: every outcome that carries an elapsed duration arose from a
received response, and the elapsed value is the measured wall-clock
duration rounded to two decimal places: it is an integer multiple of
1/100 and differs from the measured duration by at most 1/200. -/
theorem elapsed_is_rounded (url : String) (timeout : ℤ) (net : NetResult)
    (q : ℚ) (h : (check_endpoint url timeout net).time = some q) :
    ∃ code raw, net = .success code raw ∧ q = round2 raw ∧
      (∃ n : ℤ, q = (n : ℚ)/100) ∧ |q - raw| ≤ 1/200 := by
  cases net with
  | success code raw =>
      have hq : q = round2 raw := by
        rw [check_endpoint_success] at h
        exact (Option.some.inj h).symm
      refine ⟨code, raw, rfl, hq, ?_, ?_⟩
      · exact ⟨roundHalfEven (raw * 100), by rw [hq]; rfl⟩
      · rw [hq]
        exact round2_abs_le raw
  | failure name isTimeout =>
      cases isTimeout with
      | true => exact Option.noConfusion h
      | false => exact Option.noConfusion h

/-- C10 witness: a response measured at exactly 1.57s records elapsed
1.57, a multiple of 1/100 within 1/200 of the measurement. -/
theorem elapsed_is_rounded_witness :
    ∃ code raw, (NetResult.success 200 (157/100)) = .success code raw ∧
      (157/100 : ℚ) = round2 raw ∧
      (∃ n : ℤ, (157/100 : ℚ) = (n : ℚ)/100) ∧
      |(157/100 : ℚ) - raw| ≤ 1/200 :=
  elapsed_is_rounded "http://a" 30 (.success 200 (157/100)) (157/100)
    (by show some (round2 (157/100)) = some (157/100)
        norm_num [round2, roundHalfEven])

end EndpointMonitor
